import Mathlib

/-!
Shallow embedding of src/packages/js/src/MatomoTracker.ts.

The global command queue window._paq is modelled as an optional list of
tuples (none when the page has not created it yet); the DOM is modelled as
the ordered list of script elements of the document. Methods that can throw
return a MethodResult carrying the resulting queue and the thrown message,
so a throw leaves the queue exactly as it was.
-/

namespace Matomo

/-- A JavaScript value as it occurs in queue tuples: a string, a number, or
the undefined value. -/
inductive JSValue where
  | str : String → JSValue
  | num : Int → JSValue
  | undef : JSValue
  deriving DecidableEq, Repr

/-- One command tuple pushed onto window._paq. -/
abbrev Tuple := List JSValue

/-- The global command queue window._paq. -/
abbrev Queue := List Tuple

/-- JavaScript truthiness of a possibly-undefined string: undefined and the
empty string are falsy. -/
def jsTruthy : Option String → Bool
  | some s => s != ""
  | none => false

/-- JavaScript `a || d` for a possibly-undefined string `a`: undefined and
the empty string fall through to the default `d`. -/
def jsOrElse : Option String → String → String
  | some s, d => if s == "" then d else s
  | none, d => d

/-- A possibly-undefined string as the JS value placed into a tuple. -/
def optStr : Option String → JSValue
  | some s => JSValue.str s
  | none => JSValue.undef

/-- A possibly-undefined number as the JS value placed into a tuple. -/
def optNum : Option Int → JSValue
  | some n => JSValue.num n
  | none => JSValue.undef

/-- Modelled from the spec: src/packages/js/src/constants.ts is not under
src/. §6 fixes the command vocabulary (track-event, track-site-search,
track-page-view, track-link); the concrete strings are the external Matomo
command names. -/
def TRACK_EVENT : String := "trackEvent"

/-- Modelled from the spec: the site-search command name of TRACK_TYPES
(constants.ts is not under src/). -/
def TRACK_SEARCH : String := "trackSiteSearch"

/-- Modelled from the spec: the page-view command name of TRACK_TYPES
(constants.ts is not under src/). -/
def TRACK_VIEW : String := "trackPageView"

/-- Modelled from the spec: the link command name of TRACK_TYPES
(constants.ts is not under src/). -/
def TRACK_LINK : String := "trackLink"

/-- Construction options. src/packages/js/src/types.ts is not under src/;
the field shapes follow §6 of the spec and the destructuring in
MatomoTracker.ts. Absent (undefined) fields are none. -/
structure UserOptions where
  urlBase : Option String
  siteId : Option JSValue
  trackerUrl : Option String
  srcUrl : Option String
  deriving DecidableEq, Repr

/-- Modelled from the spec: constants.ts is not under src/. §4.1 merges
user options over defaults, and §6 lists urlBase as required with no
default value, so the defaults supply none of the four option fields. -/
def defaultOptions : UserOptions := ⟨none, none, none, none⟩

/-- The spread merge of the constructor: a key present in userOptions
overrides the default. -/
def mergeOptions (d u : UserOptions) : UserOptions :=
  ⟨Option.orElse u.urlBase (fun _ => d.urlBase),
   Option.orElse u.siteId (fun _ => d.siteId),
   Option.orElse u.trackerUrl (fun _ => d.trackerUrl),
   Option.orElse u.srcUrl (fun _ => d.srcUrl)⟩

/-- A script element of the document, with the four attributes the
initializer sets. -/
structure ScriptElement where
  type : String
  async : Bool
  defer : Bool
  src : String
  deriving DecidableEq, Repr

/-- The document, as its ordered list of script elements. -/
abbrev Doc := List ScriptElement

/-- The base-URL normalization of `initialize`: if the last character is
not a path separator, append one. -/
def normalizeUrlBase (urlBase : String) : String :=
  if urlBase.data.getLast? ≠ some '/' then urlBase ++ "/" else urlBase

/-- `MatomoTracker.initialize`. `window._paq = window._paq || []` is the
`paq.getD []`; the four initialization tuples and the script element are
produced only when the queue is empty, and the new script element is
inserted before the first existing script element only when one exists
(there is no append fallback in the source). -/
def initTracker (urlBase : String) (siteId : Option JSValue)
    (trackerUrl srcUrl : Option String) (paq : Option Queue) (doc : Doc) :
    Queue × Doc :=
  let ub := normalizeUrlBase urlBase
  let q := paq.getD []
  if q.length = 0 then
    let q2 := q ++
      [[JSValue.str "setTrackerUrl", JSValue.str (jsOrElse trackerUrl (ub ++ "matomo.php"))],
       [JSValue.str "setSiteId", siteId.getD JSValue.undef],
       [JSValue.str "enableHeartBeatTimer"],
       [JSValue.str "enableLinkTracking"]]
    let scriptElement : ScriptElement :=
      ⟨"text/javascript", true, true, jsOrElse srcUrl (ub ++ "matomo.js")⟩
    let doc2 : Doc :=
      match doc with
      | [] => doc
      | _ :: _ => scriptElement :: doc
    (q2, doc2)
  else (q, doc)

/-- Outcome of a wrapper construction: the queue reference, the document,
and the synchronously thrown error message, if any. A throw leaves the
queue and document untouched. -/
structure ConstructResult where
  paq : Option Queue
  doc : Doc
  thrown : Option String
  deriving DecidableEq, Repr

/-- The `MatomoTracker` constructor: merge options over the defaults, throw
when urlBase is falsy, otherwise run the initializer. -/
def newMatomoTracker (userOptions : UserOptions) (paq : Option Queue)
    (doc : Doc) : ConstructResult :=
  let options := mergeOptions defaultOptions userOptions
  match options.urlBase with
  | some ub =>
      if ub = "" then ⟨paq, doc, some "Matomo urlBase is required."⟩
      else
        let r := initTracker ub options.siteId options.trackerUrl options.srcUrl paq doc
        ⟨some r.1, r.2, none⟩
  | none => ⟨paq, doc, some "Matomo urlBase is required."⟩

/-- The ambient window state `track` reads its defaults from. -/
structure Window where
  documentTitle : String
  locationHref : String
  deriving DecidableEq, Repr

/-- Modelled from the spec: types.ts is not under src/; §3 describes a
custom dimension as a (numeric identifier, value) pair. -/
structure CustomDimension where
  id : Int
  value : JSValue
  deriving DecidableEq, Repr

/-- Parameters of `track`. Absent optional parameters are none; the
customDimensions parameter is either absent/false (none) or an array. -/
structure TrackParams where
  data : List JSValue
  documentTitle : Option String
  href : Option String
  customDimensions : Option (List CustomDimension)
  deriving DecidableEq, Repr

/-- The setCustomDimension tuple pushed for one custom dimension. -/
def dimTuple (cd : CustomDimension) : Tuple :=
  [JSValue.str "setCustomDimension", JSValue.num cd.id, cd.value]

/-- The tuples `track` pushes, in order: the guard skips everything when the
data tuple is empty; otherwise one setCustomDimension tuple per entry of a
non-empty dimensions array, then setCustomUrl, setDocumentTitle, and the
data tuple itself. -/
def trackAppends (w : Window) (p : TrackParams) : List Tuple :=
  let documentTitle := p.documentTitle.getD w.documentTitle
  let href := p.href.getD w.locationHref
  if p.data.length ≠ 0 then
    (match p.customDimensions with
     | some customDimensions =>
         if customDimensions.length ≠ 0 then customDimensions.map dimTuple else []
     | none => []) ++
    [[JSValue.str "setCustomUrl", JSValue.str href],
     [JSValue.str "setDocumentTitle", JSValue.str documentTitle],
     p.data]
  else []

/-- Outcome of one tracking method call: the resulting queue and the thrown
message, if any. A throw leaves the queue exactly as it was. -/
structure MethodResult where
  queue : Queue
  thrown : Option String
  deriving DecidableEq, Repr

/-- `MatomoTracker.track` acting on the queue; it never throws. -/
def trackM (w : Window) (p : TrackParams) (q : Queue) : MethodResult :=
  ⟨q ++ trackAppends w p, none⟩

/-- Parameters of `trackEvent` (types.ts is not under src/; shapes follow
§4.3 of the spec and the destructuring in MatomoTracker.ts). -/
structure TrackEventParams where
  category : Option String
  action : Option String
  name : Option String
  value : Option Int
  documentTitle : Option String
  href : Option String
  customDimensions : Option (List CustomDimension)
  deriving DecidableEq, Repr

/-- `MatomoTracker.trackEvent`: require truthy category and action, then
delegate to `track` with the event data tuple. -/
def trackEventM (w : Window) (p : TrackEventParams) (q : Queue) : MethodResult :=
  if jsTruthy p.category && jsTruthy p.action then
    trackM w
      ⟨[JSValue.str TRACK_EVENT, optStr p.category, optStr p.action, optStr p.name, optNum p.value],
       p.documentTitle, p.href, p.customDimensions⟩ q
  else ⟨q, some "Error: category and action are required."⟩

/-- Parameters of `trackSiteSearch` (types.ts is not under src/; shapes
follow §4.4 of the spec and the destructuring in MatomoTracker.ts). -/
structure TrackSiteSearchParams where
  keyword : Option String
  category : Option String
  count : Option Int
  documentTitle : Option String
  href : Option String
  customDimensions : Option (List CustomDimension)
  deriving DecidableEq, Repr

/-- `MatomoTracker.trackSiteSearch`: require a truthy keyword, then delegate
to `track` with the search data tuple. -/
def trackSiteSearchM (w : Window) (p : TrackSiteSearchParams) (q : Queue) : MethodResult :=
  if jsTruthy p.keyword then
    trackM w
      ⟨[JSValue.str TRACK_SEARCH, optStr p.keyword, optStr p.category, optNum p.count],
       p.documentTitle, p.href, p.customDimensions⟩ q
  else ⟨q, some "Error: keyword is required."⟩

/-- Parameters of `trackPageView` (types.ts is not under src/; shapes follow
§4.6 of the spec). -/
structure TrackPageViewParams where
  documentTitle : Option String
  href : Option String
  customDimensions : Option (List CustomDimension)
  deriving DecidableEq, Repr

/-- `MatomoTracker.trackPageView`: delegate to `track` with the page-view
data tuple. -/
def trackPageViewM (w : Window) (p : TrackPageViewParams) (q : Queue) : MethodResult :=
  trackM w ⟨[JSValue.str TRACK_VIEW], p.documentTitle, p.href, p.customDimensions⟩ q

/-- Parameters of `trackLink` (types.ts is not under src/; shapes follow
§4.5 of the spec): href, and an optional linkType whose destructuring
default is "link". -/
structure TrackLinkParams where
  href : String
  linkType : Option String
  deriving DecidableEq, Repr

/-- `MatomoTracker.trackLink`: push the link tuple directly onto the queue,
bypassing `track`; it never throws. -/
def trackLinkM (p : TrackLinkParams) (q : Queue) : MethodResult :=
  ⟨q ++ [[JSValue.str TRACK_LINK, JSValue.str p.href, JSValue.str (p.linkType.getD "link")]], none⟩

/-! ### Helper lemmas -/

theorem jsTruthy_iff (o : Option String) : jsTruthy o = true ↔ ∃ s, o = some s ∧ s ≠ "" := by
  cases o <;> simp [jsTruthy]

theorem mergeOptions_default (u : UserOptions) : mergeOptions defaultOptions u = u := by
  cases u with
  | mk ub sid tu su =>
      simp only [mergeOptions, defaultOptions]
      congr 1 <;> first
        | (cases ub <;> rfl)
        | (cases sid <;> rfl)
        | (cases tu <;> rfl)
        | (cases su <;> rfl)

/-- The four initialization tuples pushed by the initializer. -/
def initCommands (siteId : Option JSValue) (trackerUrl : Option String) (ub : String) : Queue :=
  [[JSValue.str "setTrackerUrl", JSValue.str (jsOrElse trackerUrl (normalizeUrlBase ub ++ "matomo.php"))],
   [JSValue.str "setSiteId", siteId.getD JSValue.undef],
   [JSValue.str "enableHeartBeatTimer"],
   [JSValue.str "enableLinkTracking"]]

/-- The script element the initializer builds. -/
def builtScript (srcUrl : Option String) (ub : String) : ScriptElement :=
  ⟨"text/javascript", true, true, jsOrElse srcUrl (normalizeUrlBase ub ++ "matomo.js")⟩

theorem initTracker_of_empty (ub : String) (sid : Option JSValue)
    (tu su : Option String) (paq : Option Queue) (doc : Doc)
    (h : paq.getD [] = []) :
    initTracker ub sid tu su paq doc =
      (initCommands sid tu ub,
       match doc with
       | [] => doc
       | _ :: _ => builtScript su ub :: doc) := by
  simp [initTracker, h, initCommands, builtScript]

theorem initTracker_of_nonempty (ub : String) (sid : Option JSValue)
    (tu su : Option String) (paq : Option Queue) (doc : Doc)
    (h : paq.getD [] ≠ []) :
    initTracker ub sid tu su paq doc = (paq.getD [], doc) := by
  have hlen : (paq.getD []).length ≠ 0 := by
    simpa [List.length_eq_zero] using h
  simp [initTracker, hlen]

theorem newMatomoTracker_of_falsy (u : UserOptions) (paq : Option Queue) (doc : Doc)
    (h : jsTruthy u.urlBase = false) :
    newMatomoTracker u paq doc = ⟨paq, doc, some "Matomo urlBase is required."⟩ := by
  cases hub : u.urlBase with
  | none => simp [newMatomoTracker, mergeOptions_default, hub]
  | some s =>
      have hs : s = "" := by simpa [jsTruthy, hub] using h
      simp [newMatomoTracker, mergeOptions_default, hub, hs]

theorem newMatomoTracker_of_truthy (u : UserOptions) (paq : Option Queue) (doc : Doc)
    (ub : String) (hub : u.urlBase = some ub) (hne : ub ≠ "") :
    newMatomoTracker u paq doc =
      ⟨some (initTracker ub u.siteId u.trackerUrl u.srcUrl paq doc).1,
       (initTracker ub u.siteId u.trackerUrl u.srcUrl paq doc).2, none⟩ := by
  simp [newMatomoTracker, mergeOptions_default, hub, hne]

/-! ### Theorems about the claims -/

/-- C3: construction throws the configuration error exactly when the base
URL option is missing or the empty string, and completes without a thrown
error for every non-empty base URL, whatever the other options, the queue
and the document are. -/
theorem construction_throws_iff_urlBase_missing_or_empty
    (u : UserOptions) (paq : Option Queue) (doc : Doc) :
    (newMatomoTracker u paq doc).thrown =
      (match u.urlBase with
       | none => some "Matomo urlBase is required."
       | some s => if s = "" then some "Matomo urlBase is required." else none) := by
  cases hub : u.urlBase with
  | none =>
      rw [newMatomoTracker_of_falsy u paq doc (by simp [jsTruthy, hub])]
  | some s =>
      by_cases hs : s = ""
      · rw [newMatomoTracker_of_falsy u paq doc (by simp [jsTruthy, hub, hs])]
        simp [hs]
      · rw [newMatomoTracker_of_truthy u paq doc s hub hs]
        simp [hs]

/-- C8: a `track` call whose data tuple is empty is a silent no-op: the
queue is unchanged and nothing is thrown, whatever the title, URL and
custom-dimensions parameters are. -/
theorem track_empty_data_silent_noop (w : Window) (t h : Option String)
    (cds : Option (List CustomDimension)) (q : Queue) :
    trackM w ⟨[], t, h, cds⟩ q = ⟨q, none⟩ := by
  simp [trackM, trackAppends]

/-- C9: a `trackLink` call with an href and no linkType appends exactly the
single tuple [trackLink, href, "link"] directly to the queue — no preceding
setCustomUrl, setDocumentTitle or setCustomDimension tuples — and throws
nothing. -/
theorem trackLink_appends_single_tuple (href : String) (q : Queue) :
    trackLinkM ⟨href, none⟩ q =
      ⟨q ++ [[JSValue.str TRACK_LINK, JSValue.str href, JSValue.str "link"]], none⟩ ∧
    (trackLinkM ⟨href, none⟩ q).queue.length = q.length + 1 := by
  refine ⟨rfl, ?_⟩
  simp [trackLinkM]

/-- C10: every operation of the wrapper is append-only on the command
queue: for every starting queue state and every call — construction
(whether it throws or initializes), track, trackEvent, trackSiteSearch,
trackPageView and trackLink, whether the call succeeds, no-ops or throws —
the queue before the call is a prefix of the queue after it. -/
theorem queue_append_only :
    (∀ (u : UserOptions) (paq : Option Queue) (doc : Doc),
       paq.getD [] <+: ((newMatomoTracker u paq doc).paq.getD [])) ∧
    (∀ (w : Window) (p : TrackParams) (q : Queue), q <+: (trackM w p q).queue) ∧
    (∀ (w : Window) (p : TrackEventParams) (q : Queue), q <+: (trackEventM w p q).queue) ∧
    (∀ (w : Window) (p : TrackSiteSearchParams) (q : Queue), q <+: (trackSiteSearchM w p q).queue) ∧
    (∀ (w : Window) (p : TrackPageViewParams) (q : Queue), q <+: (trackPageViewM w p q).queue) ∧
    (∀ (p : TrackLinkParams) (q : Queue), q <+: (trackLinkM p q).queue) := by
  refine ⟨?_, ?_, ?_, ?_, ?_, ?_⟩
  · intro u paq doc
    by_cases ht : jsTruthy u.urlBase = true
    · obtain ⟨ub, hub, hne⟩ := (jsTruthy_iff u.urlBase).mp ht
      rw [newMatomoTracker_of_truthy u paq doc ub hub hne]
      by_cases hq : paq.getD [] = []
      · rw [initTracker_of_empty ub u.siteId u.trackerUrl u.srcUrl paq doc hq]
        exact ⟨initCommands u.siteId u.trackerUrl ub, by simp [hq]⟩
      · rw [initTracker_of_nonempty ub u.siteId u.trackerUrl u.srcUrl paq doc hq]
        exact ⟨[], by simp⟩
    · rw [newMatomoTracker_of_falsy u paq doc (by simpa using ht)]
  · intro w p q
    exact ⟨trackAppends w p, rfl⟩
  · intro w p q
    unfold trackEventM
    split
    · exact ⟨_, rfl⟩
    · exact ⟨[], by simp⟩
  · intro w p q
    unfold trackSiteSearchM
    split
    · exact ⟨_, rfl⟩
    · exact ⟨[], by simp⟩
  · intro w p q
    exact ⟨_, rfl⟩
  · intro p q
    exact ⟨_, rfl⟩

/-- C1: for every `track` call with a non-empty data tuple the tuples
appended to the queue are exactly, in order: one setCustomDimension tuple
per entry of the supplied custom-dimensions list (as many tuples as the
list has entries, in the list's order), then setCustomUrl with the resolved
URL, then setDocumentTitle with the resolved title, then the data tuple
itself, and nothing else; nothing is thrown. -/
theorem track_appends_dims_url_title_data
    (w : Window) (p : TrackParams) (q : Queue) (h : p.data ≠ []) :
    trackM w p q =
      ⟨q ++ (((p.customDimensions.getD []).map dimTuple) ++
        [[JSValue.str "setCustomUrl", JSValue.str (p.href.getD w.locationHref)],
         [JSValue.str "setDocumentTitle", JSValue.str (p.documentTitle.getD w.documentTitle)],
         p.data]), none⟩ ∧
    ((p.customDimensions.getD []).map dimTuple).length = (p.customDimensions.getD []).length := by
  have hd : p.data.length ≠ 0 := by simpa [List.length_eq_zero] using h
  refine ⟨?_, by simp⟩
  simp only [trackM, trackAppends]
  cases hcd : p.customDimensions with
  | none => simp [hd]
  | some l =>
      cases l with
      | nil => simp [hd]
      | cons a as => simp [hd]

/-- C1 witness: a concrete track call with one custom dimension. -/
theorem track_appends_dims_url_title_data_witness :
    (⟨[JSValue.str "e"], none, none, some [⟨1, JSValue.str "v"⟩]⟩ : TrackParams).data ≠ [] ∧
    trackM ⟨"T", "L"⟩ ⟨[JSValue.str "e"], none, none, some [⟨1, JSValue.str "v"⟩]⟩ [] =
      ⟨[[JSValue.str "setCustomDimension", JSValue.num 1, JSValue.str "v"],
        [JSValue.str "setCustomUrl", JSValue.str "L"],
        [JSValue.str "setDocumentTitle", JSValue.str "T"],
        [JSValue.str "e"]], none⟩ := by
  refine ⟨by decide, ?_⟩
  exact (track_appends_dims_url_title_data ⟨"T", "L"⟩
    ⟨[JSValue.str "e"], none, none, some [⟨1, JSValue.str "v"⟩]⟩ [] (by decide)).1

/-- C2: against an initially empty queue a construction appends exactly the
4 initialization tuples (setTrackerUrl, setSiteId, enableHeartBeatTimer,
enableLinkTracking, in that order); a second construction sharing that
queue leaves it unchanged (4 tuples, not 8), and any construction that
finds the queue non-empty appends no initialization tuples. -/
theorem initialization_commands_once
    (u1 u2 : UserOptions) (d1 d2 : Doc) (ub1 : String)
    (h1 : u1.urlBase = some ub1) (h1ne : ub1 ≠ "")
    (h2 : jsTruthy u2.urlBase = true) :
    (newMatomoTracker u1 (some []) d1).paq = some (initCommands u1.siteId u1.trackerUrl ub1) ∧
    (initCommands u1.siteId u1.trackerUrl ub1).length = 4 ∧
    (newMatomoTracker u2 (some (initCommands u1.siteId u1.trackerUrl ub1)) d2).paq =
      some (initCommands u1.siteId u1.trackerUrl ub1) ∧
    (∀ q : Queue, q ≠ [] → (newMatomoTracker u2 (some q) d2).paq = some q) := by
  have key : ∀ (q : Queue), q ≠ [] → (newMatomoTracker u2 (some q) d2).paq = some q := by
    intro q hq
    obtain ⟨ub2, hub2, hne2⟩ := (jsTruthy_iff u2.urlBase).mp h2
    rw [newMatomoTracker_of_truthy u2 (some q) d2 ub2 hub2 hne2,
        initTracker_of_nonempty ub2 u2.siteId u2.trackerUrl u2.srcUrl (some q) d2 (by simpa using hq)]
    rfl
  refine ⟨?_, by simp [initCommands], key _ (by simp [initCommands]), key⟩
  rw [newMatomoTracker_of_truthy u1 (some []) d1 ub1 h1 h1ne,
      initTracker_of_empty ub1 u1.siteId u1.trackerUrl u1.srcUrl (some []) d1 rfl]

/-- C2 witness: two concrete constructions over the same queue. -/
theorem initialization_commands_once_witness :
    (some "http://x" : Option String) = some "http://x" ∧ ("http://x" : String) ≠ "" ∧
    jsTruthy (some "http://y/") = true ∧
    (newMatomoTracker ⟨some "http://x", some (JSValue.num 3), none, none⟩ (some []) []).paq =
      some (initCommands (some (JSValue.num 3)) none "http://x") ∧
    (initCommands (some (JSValue.num 3)) none "http://x").length = 4 ∧
    (newMatomoTracker ⟨some "http://y/", none, none, none⟩
        (some (initCommands (some (JSValue.num 3)) none "http://x")) []).paq =
      some (initCommands (some (JSValue.num 3)) none "http://x") ∧
    (newMatomoTracker ⟨some "http://y/", none, none, none⟩
        (some [[JSValue.str "z"]]) []).paq = some [[JSValue.str "z"]] := by
  have h := initialization_commands_once
    ⟨some "http://x", some (JSValue.num 3), none, none⟩ ⟨some "http://y/", none, none, none⟩
    [] [] "http://x" rfl (by decide) (by decide)
  exact ⟨rfl, by decide, by decide, h.1, h.2.1, h.2.2.1, h.2.2.2 [[JSValue.str "z"]] (by decide)⟩

/-- C4 counterexample: the claim says a script element is ensured in the
document on every construction, appended when no script element exists and
independently of the queue-empty guard. On the code, a construction with an
empty queue and a document holding no script element inserts nothing, and a
construction that finds the queue non-empty leaves the document unchanged
even though a script element exists to insert before. -/
theorem script_injection_claim_counterexample :
    (newMatomoTracker ⟨some "http://x", none, none, none⟩ (some []) []).doc = [] ∧
    (newMatomoTracker ⟨some "http://x", none, none, none⟩
        (some [[JSValue.str "setSiteId", JSValue.undef]])
        [⟨"text/javascript", false, false, "a.js"⟩]).doc =
      [⟨"text/javascript", false, false, "a.js"⟩] := by
  constructor <;> rfl

/-- C4 amended: only on constructions where the queue-empty guard fires is
the script element (type text/javascript, async, defer, src = explicit
override or base + matomo.js) built and then inserted immediately before
the first existing script element, and only when one exists; when the
document has no script element nothing is inserted, and when the guard does
not fire the document is left unchanged. -/
theorem script_injected_only_when_guard_fires
    (u : UserOptions) (paq : Option Queue) (doc : Doc) (ub : String)
    (hub : u.urlBase = some ub) (hne : ub ≠ "") :
    (paq.getD [] = [] →
       (newMatomoTracker u paq doc).doc =
         (match doc with
          | [] => doc
          | _ :: _ => builtScript u.srcUrl ub :: doc)) ∧
    (paq.getD [] ≠ [] → (newMatomoTracker u paq doc).doc = doc) := by
  constructor
  · intro hq
    rw [newMatomoTracker_of_truthy u paq doc ub hub hne,
        initTracker_of_empty ub u.siteId u.trackerUrl u.srcUrl paq doc hq]
  · intro hq
    rw [newMatomoTracker_of_truthy u paq doc ub hub hne,
        initTracker_of_nonempty ub u.siteId u.trackerUrl u.srcUrl paq doc hq]

/-- C4 witness: the amended behavior at concrete inputs, for a firing and
for a non-firing guard. -/
theorem script_injected_only_when_guard_fires_witness :
    ("http://x" : String) ≠ "" ∧
    (newMatomoTracker ⟨some "http://x", none, none, none⟩ (some [])
        [⟨"text/javascript", false, false, "a.js"⟩]).doc =
      builtScript none "http://x" :: [⟨"text/javascript", false, false, "a.js"⟩] ∧
    (newMatomoTracker ⟨some "http://x", none, none, none⟩ (some [[JSValue.str "q"]])
        [⟨"text/javascript", false, false, "a.js"⟩]).doc =
      [⟨"text/javascript", false, false, "a.js"⟩] := by
  refine ⟨by decide, ?_, ?_⟩
  · exact (script_injected_only_when_guard_fires
      ⟨some "http://x", none, none, none⟩ (some []) [⟨"text/javascript", false, false, "a.js"⟩]
      "http://x" rfl (by decide)).1 rfl
  · exact (script_injected_only_when_guard_fires
      ⟨some "http://x", none, none, none⟩ (some [[JSValue.str "q"]])
      [⟨"text/javascript", false, false, "a.js"⟩] "http://x" rfl (by decide)).2 (by decide)

/-- C5: the default tracker endpoint URL and default script URL carry
exactly one path separator between base and filename: a base whose last
character is not the separator gets one appended before the filename, and a
base already ending in the separator is left unchanged. The endpoint shows
up as the setTrackerUrl tuple of a fresh construction with no overrides,
and the script URL as the src of the script element inserted before the
existing one. -/
theorem default_urls_have_exactly_one_separator (ub : String) (hne : ub ≠ "") :
    (ub.data.getLast? ≠ some '/' →
       (newMatomoTracker ⟨some ub, none, none, none⟩ (some [])
           [⟨"text/javascript", false, false, "a.js"⟩]).paq =
         some [[JSValue.str "setTrackerUrl", JSValue.str (ub ++ "/matomo.php")],
               [JSValue.str "setSiteId", JSValue.undef],
               [JSValue.str "enableHeartBeatTimer"],
               [JSValue.str "enableLinkTracking"]] ∧
       (newMatomoTracker ⟨some ub, none, none, none⟩ (some [])
           [⟨"text/javascript", false, false, "a.js"⟩]).doc.head? =
         some ⟨"text/javascript", true, true, ub ++ "/matomo.js"⟩) ∧
    (ub.data.getLast? = some '/' →
       (newMatomoTracker ⟨some ub, none, none, none⟩ (some [])
           [⟨"text/javascript", false, false, "a.js"⟩]).paq =
         some [[JSValue.str "setTrackerUrl", JSValue.str (ub ++ "matomo.php")],
               [JSValue.str "setSiteId", JSValue.undef],
               [JSValue.str "enableHeartBeatTimer"],
               [JSValue.str "enableLinkTracking"]] ∧
       (newMatomoTracker ⟨some ub, none, none, none⟩ (some [])
           [⟨"text/javascript", false, false, "a.js"⟩]).doc.head? =
         some ⟨"text/javascript", true, true, ub ++ "matomo.js"⟩) := by
  have hsep : ∀ t : String, (ub ++ "/") ++ t = ub ++ ("/" ++ t) := by
    intro t
    rw [String.append_assoc]
  have base : newMatomoTracker ⟨some ub, none, none, none⟩ (some [])
      [⟨"text/javascript", false, false, "a.js"⟩] =
      ⟨some (initCommands none none ub),
       builtScript none ub :: [⟨"text/javascript", false, false, "a.js"⟩], none⟩ := by
    rw [newMatomoTracker_of_truthy _ _ _ ub rfl hne,
        initTracker_of_empty ub none none none (some []) _ rfl]
  constructor
  · intro hl
    rw [base]
    constructor
    · simp [initCommands, jsOrElse, normalizeUrlBase, hl, hsep]
    · simp [builtScript, jsOrElse, normalizeUrlBase, hl, hsep]
  · intro hl
    rw [base]
    constructor
    · simp [initCommands, jsOrElse, normalizeUrlBase, hl]
    · simp [builtScript, jsOrElse, normalizeUrlBase, hl]

/-- C5 witness: the bases http://x and http://x/ both resolve to the
script URL http://x/matomo.js and the endpoint http://x/matomo.php. -/
theorem default_urls_have_exactly_one_separator_witness :
    ("http://x" : String) ≠ "" ∧ "http://x".data.getLast? ≠ some '/' ∧
    (newMatomoTracker ⟨some "http://x", none, none, none⟩ (some [])
        [⟨"text/javascript", false, false, "a.js"⟩]).paq =
      some [[JSValue.str "setTrackerUrl", JSValue.str "http://x/matomo.php"],
            [JSValue.str "setSiteId", JSValue.undef],
            [JSValue.str "enableHeartBeatTimer"],
            [JSValue.str "enableLinkTracking"]] ∧
    (newMatomoTracker ⟨some "http://x", none, none, none⟩ (some [])
        [⟨"text/javascript", false, false, "a.js"⟩]).doc.head? =
      some ⟨"text/javascript", true, true, "http://x/matomo.js"⟩ ∧
    ("http://x/" : String) ≠ "" ∧ "http://x/".data.getLast? = some '/' ∧
    (newMatomoTracker ⟨some "http://x/", none, none, none⟩ (some [])
        [⟨"text/javascript", false, false, "a.js"⟩]).doc.head? =
      some ⟨"text/javascript", true, true, "http://x/matomo.js"⟩ := by
  have h1 := (default_urls_have_exactly_one_separator "http://x" (by decide)).1 (by decide)
  have h2 := (default_urls_have_exactly_one_separator "http://x/" (by decide)).2 (by decide)
  exact ⟨by decide, by decide, h1.1, h1.2, by decide, by decide, h2.2⟩

/-- C6: a `trackEvent` call with truthy category and action and no custom
dimensions appends exactly 3 tuples in order — setCustomUrl, then
setDocumentTitle, then the event tuple [trackEvent, category, action, name,
value] — where name and value are the undefined value when not supplied. -/
theorem trackEvent_appends_exactly_three
    (w : Window) (c a : String) (nm : Option String) (v : Option Int)
    (t u : Option String) (q : Queue) (hc : c ≠ "") (ha : a ≠ "") :
    trackEventM w ⟨some c, some a, nm, v, t, u, none⟩ q =
      ⟨q ++ [[JSValue.str "setCustomUrl", JSValue.str (u.getD w.locationHref)],
             [JSValue.str "setDocumentTitle", JSValue.str (t.getD w.documentTitle)],
             [JSValue.str TRACK_EVENT, JSValue.str c, JSValue.str a, optStr nm, optNum v]],
       none⟩ ∧
    (trackEventM w ⟨some c, some a, nm, v, t, u, none⟩ q).queue.length = q.length + 3 ∧
    optStr (none : Option String) = JSValue.undef ∧
    optNum (none : Option Int) = JSValue.undef := by
  have hg : (jsTruthy (some c) && jsTruthy (some a)) = true := by
    simp [jsTruthy, hc, ha]
  refine ⟨?_, ?_, rfl, rfl⟩
  · simp [trackEventM, hg, trackM, trackAppends, optStr]
  · simp [trackEventM, hg, trackM, trackAppends]

/-- C6 witness: trackEvent with only category c and action a appends the 3
tuples, the event tuple ending in two undefined values. -/
theorem trackEvent_appends_exactly_three_witness :
    ("c" : String) ≠ "" ∧ ("a" : String) ≠ "" ∧
    trackEventM ⟨"T", "L"⟩ ⟨some "c", some "a", none, none, none, none, none⟩ [] =
      ⟨[[JSValue.str "setCustomUrl", JSValue.str "L"],
        [JSValue.str "setDocumentTitle", JSValue.str "T"],
        [JSValue.str "trackEvent", JSValue.str "c", JSValue.str "a", JSValue.undef, JSValue.undef]],
       none⟩ := by
  refine ⟨by decide, by decide, ?_⟩
  exact (trackEvent_appends_exactly_three ⟨"T", "L"⟩ "c" "a" none none none none []
    (by decide) (by decide)).1

/-- C7: a `trackEvent` call with category or action absent, and a
`trackSiteSearch` call with keyword absent, throw the missing-field error
synchronously and append zero tuples: the queue is exactly the one before
the call. -/
theorem missing_required_fields_throw
    (w : Window) (pe : TrackEventParams) (ps : TrackSiteSearchParams) (q : Queue)
    (he : pe.category = none ∨ pe.action = none) (hs : ps.keyword = none) :
    trackEventM w pe q = ⟨q, some "Error: category and action are required."⟩ ∧
    trackSiteSearchM w ps q = ⟨q, some "Error: keyword is required."⟩ := by
  constructor
  · have hg : (jsTruthy pe.category && jsTruthy pe.action) = false := by
      rcases he with h | h <;> simp [h, jsTruthy]
    simp [trackEventM, hg]
  · simp [trackSiteSearchM, hs, jsTruthy]

/-- C7 witness: a trackEvent call missing its category and a
trackSiteSearch call missing its keyword, on a concrete queue. -/
theorem missing_required_fields_throw_witness :
    ((none : Option String) = none ∨ (some "a" : Option String) = none) ∧
    ((none : Option String) = none) ∧
    trackEventM ⟨"T", "L"⟩ ⟨none, some "a", none, none, none, none, none⟩ [[JSValue.str "z"]] =
      ⟨[[JSValue.str "z"]], some "Error: category and action are required."⟩ ∧
    trackSiteSearchM ⟨"T", "L"⟩ ⟨none, none, none, none, none, none⟩ [[JSValue.str "z"]] =
      ⟨[[JSValue.str "z"]], some "Error: keyword is required."⟩ := by
  have h := missing_required_fields_throw ⟨"T", "L"⟩
    ⟨none, some "a", none, none, none, none, none⟩ ⟨none, none, none, none, none, none⟩
    [[JSValue.str "z"]] (Or.inl rfl) rfl
  exact ⟨Or.inl rfl, rfl, h.1, h.2⟩

end Matomo
